import Mathlib

/-!
Shallow embedding of the haze-ls language server (src/server/src/server.ts).

The server keeps three pieces of session state: the capability flags fixed
at `initialize`, the global settings, and a per-document settings cache
(a JS `Map` from URI to the pending/resolved configuration `Thenable`).
The `TextDocuments` manager tracks open documents.  Handlers are embedded
as pure functions on an explicit `ServerState`; the client side of the
`workspace/getConfiguration` round trip is an oracle parameter, and each
handler additionally returns the list of configuration requests it issued,
so that round trips can be counted.  A settled JS promise is embedded as
`Outcome`: `ok` for a resolved value, `error` for a rejection, and an
`await` of a rejected promise propagates the rejection.
-/

namespace HazeLS

/-- Settings interface of the server: `interface HazeSettings { maxNumberOfProblems: number }`
(server.ts lines 89-91). -/
structure HazeSettings where
  maxNumberOfProblems : Int
deriving DecidableEq, Repr

/-- Hard default used when configuration is unavailable:
`const defaultSettings: HazeSettings = { maxNumberOfProblems: 1000 }` (line 96). -/
def defaultSettings : HazeSettings := { maxNumberOfProblems := 1000 }

/-- Outcome of awaiting a settled JS `Thenable`: resolved with a value, or
rejected with a reason.  Awaiting a rejection re-throws it. -/
inductive Outcome (α : Type) where
  | ok : α → Outcome α
  | error : String → Outcome α
deriving DecidableEq, Repr

/-- Client capability fragment `workspace?: { configuration?: boolean, workspaceFolders?: boolean }`
as read by the initialize handler (lines 42-47).  `none` is an absent field. -/
structure WorkspaceClientCapabilities where
  configuration : Option Bool
  workspaceFolders : Option Bool
deriving DecidableEq, Repr

/-- Client capability fragment `textDocument.publishDiagnostics?: { relatedInformation?: boolean }`
as read on lines 48-52. -/
structure PublishDiagnosticsClientCapabilities where
  relatedInformation : Option Bool
deriving DecidableEq, Repr

/-- Client capability fragment `textDocument?: { publishDiagnostics?: ... }`. -/
structure TextDocumentClientCapabilities where
  publishDiagnostics : Option PublishDiagnosticsClientCapabilities
deriving DecidableEq, Repr

/-- The client capability descriptor consulted by `onInitialize`; every
nested field is optional. -/
structure ClientCapabilities where
  workspace : Option WorkspaceClientCapabilities
  textDocument : Option TextDocumentClientCapabilities
deriving DecidableEq, Repr

/-- The part of `InitializeParams` the handler reads. -/
structure InitializeParams where
  capabilities : ClientCapabilities
deriving DecidableEq, Repr

/-- LSP text document sync kinds; the server declares `Incremental` (line 56). -/
inductive TextDocumentSyncKind where
  | NoSync
  | Full
  | Incremental
deriving DecidableEq, Repr

/-- Server completion options: `completionProvider: { resolveProvider: true }` (lines 58-60). -/
structure CompletionOptions where
  resolveProvider : Option Bool
deriving DecidableEq, Repr

/-- Server diagnostic options (lines 61-64). -/
structure DiagnosticOptions where
  interFileDependencies : Bool
  workspaceDiagnostics : Bool
deriving DecidableEq, Repr

/-- Server workspace-folder advertisement `workspaceFolders: { supported: true }` (lines 68-72). -/
structure WorkspaceFoldersServerCapabilities where
  supported : Option Bool
deriving DecidableEq, Repr

/-- The `workspace` block the initialize result gains when the client
supports workspace folders. -/
structure ServerWorkspaceCapabilities where
  workspaceFolders : Option WorkspaceFoldersServerCapabilities
deriving DecidableEq, Repr

/-- The server capability record built on lines 54-73. -/
structure ServerCapabilities where
  textDocumentSync : TextDocumentSyncKind
  completionProvider : Option CompletionOptions
  diagnosticProvider : Option DiagnosticOptions
  workspace : Option ServerWorkspaceCapabilities
deriving DecidableEq, Repr

/-- The initialization result returned by `onInitialize`. -/
structure InitializeResult where
  capabilities : ServerCapabilities
deriving DecidableEq, Repr

/-- The three mutable capability flags set at `initialize` (lines 33-35, 42-52). -/
structure CapabilityFlags where
  hasConfigurationCapability : Bool
  hasWorkspaceFolderCapability : Bool
  hasDiagnosticRelatedInformationCapability : Bool
deriving DecidableEq, Repr

/-- Truthiness of an optional boolean field, as TypeScript `!!x` computes it:
an absent field and `false` are falsy. -/
def truthy (b : Option Bool) : Bool := b.getD false

/-- The `connection.onInitialize` handler (lines 37-75): computes the three
capability flags from the client descriptor and returns the initialize
result; the `workspace` block is added exactly when the client supports
workspace folders. -/
def onInitialize (params : InitializeParams) : CapabilityFlags × InitializeResult :=
  let capabilities := params.capabilities
  let hasConfigurationCapability :=
    match capabilities.workspace with
    | some w => truthy w.configuration
    | none => false
  let hasWorkspaceFolderCapability :=
    match capabilities.workspace with
    | some w => truthy w.workspaceFolders
    | none => false
  let hasDiagnosticRelatedInformationCapability :=
    match capabilities.textDocument with
    | some td =>
      match td.publishDiagnostics with
      | some pd => truthy pd.relatedInformation
      | none => false
    | none => false
  let result : InitializeResult :=
    { capabilities :=
        { textDocumentSync := TextDocumentSyncKind.Incremental
          completionProvider := some { resolveProvider := some true }
          diagnosticProvider :=
            some { interFileDependencies := false, workspaceDiagnostics := false }
          workspace :=
            if hasWorkspaceFolderCapability then
              some { workspaceFolders := some { supported := some true } }
            else
              none } }
  ({ hasConfigurationCapability := hasConfigurationCapability
     hasWorkspaceFolderCapability := hasWorkspaceFolderCapability
     hasDiagnosticRelatedInformationCapability := hasDiagnosticRelatedInformationCapability },
   result)

/-- C1: the initialize result always declares incremental sync, completion
with resolve-on-demand, and a per-document diagnostic provider; it
advertises workspace folders exactly when the client's descriptor declares
(truthy) `workspace.workspaceFolders`. -/
theorem onInitialize_capabilities (params : InitializeParams) :
    ((onInitialize params).2.capabilities.textDocumentSync = TextDocumentSyncKind.Incremental ∧
      (onInitialize params).2.capabilities.completionProvider =
        some { resolveProvider := some true } ∧
      (onInitialize params).2.capabilities.diagnosticProvider =
        some { interFileDependencies := false, workspaceDiagnostics := false }) ∧
    ((onInitialize params).2.capabilities.workspace.isSome ↔
      ∃ w, params.capabilities.workspace = some w ∧ w.workspaceFolders = some true) := by
  obtain ⟨⟨ws, td⟩⟩ := params
  refine ⟨⟨?_, ?_, ?_⟩, ?_⟩
  · cases ws <;> rfl
  · cases ws <;> rfl
  · cases ws <;> rfl
  · cases ws with
    | none => simp [onInitialize]
    | some w =>
      obtain ⟨cfg, wf⟩ := w
      cases wf with
      | none => simp [onInitialize, truthy]
      | some b => cases b <;> simp [onInitialize, truthy]

/-! ### The JS `Map`, embedded as an association list with unique keys -/

/-- JS `Map.prototype.get`: the value bound to `k`, if any. -/
def mapGet (m : List (String × α)) (k : String) : Option α :=
  match m with
  | [] => none
  | (k₀, v₀) :: rest => if k₀ = k then some v₀ else mapGet rest k

/-- JS `Map.prototype.set`: rebinds `k` in place, or appends a new binding. -/
def mapSet (m : List (String × α)) (k : String) (v : α) : List (String × α) :=
  match m with
  | [] => [(k, v)]
  | (k₀, v₀) :: rest => if k₀ = k then (k, v) :: rest else (k₀, v₀) :: mapSet rest k v

/-- JS `Map.prototype.delete`: drops every binding of `k`. -/
def mapDelete (m : List (String × α)) (k : String) : List (String × α) :=
  match m with
  | [] => []
  | (k₀, v₀) :: rest => if k₀ = k then mapDelete rest k else (k₀, v₀) :: mapDelete rest k

theorem mapGet_mapSet_self (m : List (String × α)) (k : String) (v : α) :
    mapGet (mapSet m k v) k = some v := by
  induction m with
  | nil => simp [mapSet, mapGet]
  | cons hd tl ih =>
    obtain ⟨k₀, v₀⟩ := hd
    by_cases h : k₀ = k <;> simp [mapSet, mapGet, h, ih]

theorem mapGet_mapDelete_self (m : List (String × α)) (k : String) :
    mapGet (mapDelete m k) k = none := by
  induction m with
  | nil => simp [mapDelete, mapGet]
  | cons hd tl ih =>
    obtain ⟨k₀, v₀⟩ := hd
    by_cases h : k₀ = k <;> simp [mapDelete, mapGet, h, ih]

theorem mapGet_mapDelete_other (m : List (String × α)) (k k' : String) (h : k' ≠ k) :
    mapGet (mapDelete m k) k' = mapGet m k' := by
  induction m with
  | nil => simp [mapDelete]
  | cons hd tl ih =>
    obtain ⟨k₀, v₀⟩ := hd
    by_cases h₀ : k₀ = k
    · subst h₀
      simp [mapDelete, mapGet, Ne.symm h, ih]
    · simp [mapDelete, mapGet, h₀, ih]

/-! ### Session state -/

/-- An open text document as the `TextDocuments` manager tracks it: its URI,
its version, and its full current text. -/
structure Document where
  uri : String
  version : Int
  text : String
deriving DecidableEq, Repr

/-- The mutable session state of server.ts: the capability flags (lines
33-35), `globalSettings` (line 97), the `documentSettings` cache of
configuration promises keyed by URI (line 100), and the `documents`
store (line 31). -/
structure ServerState where
  flags : CapabilityFlags
  globalSettings : HazeSettings
  documentSettings : List (String × Outcome HazeSettings)
  documents : List (String × Document)
deriving Repr

/-- A `workspace/configuration` request as issued on lines 123-126: scoped
to one resource and to the section `haze-ls` (the field `section` is a Lean
keyword, hence `sectionName`). -/
structure ConfigRequest where
  scopeUri : String
  sectionName : String
deriving DecidableEq, Repr

/-- The client's side of the configuration round trip: how the promise
returned by `connection.workspace.getConfiguration` settles for each request. -/
def ConfigClient : Type := ConfigRequest → Outcome HazeSettings

/-- The function `getDocumentSettings` (lines 117-130).  Without the
configuration capability it resolves to the global settings, reading and
writing nothing; otherwise a cache miss issues one configuration query for
`(resource, haze-ls)`, caches its settled outcome, and returns it, while a
cache hit returns the cached outcome with no query.  The third component
lists the round trips performed. -/
def getDocumentSettings (client : ConfigClient) (st : ServerState) (resource : String) :
    Outcome HazeSettings × ServerState × List ConfigRequest :=
  if st.flags.hasConfigurationCapability = false then
    (Outcome.ok st.globalSettings, st, [])
  else
    match mapGet st.documentSettings resource with
    | some result => (result, st, [])
    | none =>
      let req : ConfigRequest := { scopeUri := resource, sectionName := "haze-ls" }
      let result := client req
      (result,
       { st with documentSettings := mapSet st.documentSettings resource result },
       [req])

/-- The `connection.onDidChangeConfiguration` handler (lines 102-115): with
the configuration capability it clears the whole settings cache; without it
it replaces the global settings by the supplied value, falling back to the
defaults when the notification carries none (`change.settings.languageServerExample
|| defaultSettings`). -/
def onDidChangeConfiguration (change : Option HazeSettings) (st : ServerState) : ServerState :=
  if st.flags.hasConfigurationCapability then
    { st with documentSettings := [] }
  else
    { st with globalSettings := change.getD defaultSettings }

/-- The `documents.onDidClose` handler (lines 133-135): drops the closed
document's settings-cache entry.  The `TextDocuments` manager also removes
the document itself from the store, so a close event does both. -/
def processClose (st : ServerState) (uri : String) : ServerState :=
  { st with
    documents := mapDelete st.documents uri
    documentSettings := mapDelete st.documentSettings uri }

/-! ### Diagnostics -/

/-- A position inside a document, as in the LSP library. -/
structure Position where
  line : Nat
  character : Nat
deriving DecidableEq, Repr

/-- A range between two positions (`end` is a Lean keyword, hence `stop`). -/
structure Range where
  start : Position
  stop : Position
deriving DecidableEq, Repr

/-- LSP diagnostic severities. -/
inductive DiagnosticSeverity where
  | Error
  | Warning
  | Information
  | Hint
deriving DecidableEq, Repr

/-- One entry of a diagnostic's related information. -/
structure DiagnosticRelatedInformation where
  uri : String
  range : Range
  message : String
deriving DecidableEq, Repr

/-- The LSP `Diagnostic` record (library type; server.ts never constructs
one, its only validator loop being commented out on lines 172-202). -/
structure Diagnostic where
  severity : Option DiagnosticSeverity
  range : Range
  message : String
  source : Option String
  relatedInformation : Option (List DiagnosticRelatedInformation)
deriving DecidableEq, Repr

/-- The two document-diagnostic report kinds of the protocol. -/
inductive DocumentDiagnosticReportKind where
  | Full
  | Unchanged
deriving DecidableEq, Repr

/-- A document diagnostic report as returned by the pull handler. -/
structure DocumentDiagnosticReport where
  kind : DocumentDiagnosticReportKind
  items : List Diagnostic
deriving DecidableEq, Repr

/-- The function `validateTextDocument` (lines 161-204): awaits the
document's settings — a rejected settings promise therefore rejects the
whole validation — and then returns the diagnostics array, which stays
empty because the only validation loop (lines 172-202) is commented out. -/
def validateTextDocument (client : ConfigClient) (st : ServerState) (textDocument : Document) :
    Outcome (List Diagnostic) × ServerState × List ConfigRequest :=
  match getDocumentSettings client st textDocument.uri with
  | (Outcome.ok _settings, st', reqs) => (Outcome.ok [], st', reqs)
  | (Outcome.error e, st', reqs) => (Outcome.error e, st', reqs)

/-- The `connection.languages.diagnostics.on` handler (lines 138-153): a
known document is validated and answered with a full report; an unknown
document is answered with an empty full report.  A rejection from the
awaited validation escapes the async handler, which the LSP transport
turns into an error response. -/
def onDiagnostics (client : ConfigClient) (st : ServerState) (uri : String) :
    Outcome DocumentDiagnosticReport × ServerState × List ConfigRequest :=
  match mapGet st.documents uri with
  | some document =>
    match validateTextDocument client st document with
    | (Outcome.ok items, st', reqs) =>
      (Outcome.ok { kind := DocumentDiagnosticReportKind.Full, items := items }, st', reqs)
    | (Outcome.error e, st', reqs) => (Outcome.error e, st', reqs)
  | none =>
    (Outcome.ok { kind := DocumentDiagnosticReportKind.Full, items := [] }, st, [])

/-! ### Concrete fixtures for witnesses -/

/-- A client whose configuration promises all resolve to the defaults. -/
def okClient : ConfigClient := fun _ => Outcome.ok defaultSettings

/-- A client whose configuration promises all reject. -/
def failClient : ConfigClient := fun _ => Outcome.error "configuration request failed"

/-- Capability flags of a fully capable client. -/
def flagsAll : CapabilityFlags :=
  { hasConfigurationCapability := true
    hasWorkspaceFolderCapability := true
    hasDiagnosticRelatedInformationCapability := true }

/-- The spec's example document: `Open("a.hz", v=1, text="function main")`. -/
def sampleDoc : Document :=
  { uri := "file:///a.hz", version := 1, text := "function main" }

/-- A session with `a.hz` open and nothing cached. -/
def openState : ServerState :=
  { flags := flagsAll
    globalSettings := defaultSettings
    documentSettings := []
    documents := [("file:///a.hz", sampleDoc)] }

/-- A session with no open document. -/
def emptyState : ServerState :=
  { flags := flagsAll
    globalSettings := defaultSettings
    documentSettings := []
    documents := [] }

/-! ### Claim theorems on diagnostics and settings -/

/-- C2: a diagnostics pull for a URI not in the document store answers with
an empty full report — no error, no state change, no round trip. -/
theorem onDiagnostics_unknown_uri (client : ConfigClient) (st : ServerState) (uri : String)
    (h : mapGet st.documents uri = none) :
    onDiagnostics client st uri =
      (Outcome.ok { kind := DocumentDiagnosticReportKind.Full, items := [] }, st, []) := by
  unfold onDiagnostics
  rw [h]

/-- Witness for C2: pulling diagnostics for a never-opened URI in the empty
session returns the empty full report. -/
theorem onDiagnostics_unknown_uri_witness :
    onDiagnostics okClient emptyState "file:///unseen.hz" =
      (Outcome.ok { kind := DocumentDiagnosticReportKind.Full, items := [] }, emptyState, []) :=
  onDiagnostics_unknown_uri okClient emptyState "file:///unseen.hz" rfl

/-- Helper: when every client response and every cached entry resolves, the
settings lookup resolves. -/
theorem getDocumentSettings_resolves (client : ConfigClient) (st : ServerState) (r : String)
    (hclient : ∀ req, ∃ s, client req = Outcome.ok s)
    (hcache : ∀ u v, mapGet st.documentSettings u = some v → ∃ s, v = Outcome.ok s) :
    ∃ s, (getDocumentSettings client st r).1 = Outcome.ok s := by
  unfold getDocumentSettings
  by_cases hcap : st.flags.hasConfigurationCapability = false
  · simp [hcap]
  · simp only [hcap, if_false]
    cases hv : mapGet st.documentSettings r with
    | some v =>
      obtain ⟨s, hs⟩ := hcache r v hv
      exact ⟨s, by simp [hs]⟩
    | none =>
      obtain ⟨s, hs⟩ := hclient { scopeUri := r, sectionName := "haze-ls" }
      exact ⟨s, by simp [hs]⟩

/-- C3: a diagnostics pull for a known document answers with a report of
kind `Full` with an empty items list (never an `Unchanged` report), the
validation function producing no diagnostics from any document text and
any resolved settings. -/
theorem onDiagnostics_known_full_empty (client : ConfigClient) (st : ServerState)
    (uri : String) (doc : Document)
    (hdoc : mapGet st.documents uri = some doc)
    (hclient : ∀ req, ∃ s, client req = Outcome.ok s)
    (hcache : ∀ u v, mapGet st.documentSettings u = some v → ∃ s, v = Outcome.ok s) :
    (∃ st' reqs, onDiagnostics client st uri =
        (Outcome.ok { kind := DocumentDiagnosticReportKind.Full, items := [] }, st', reqs)) ∧
    ∀ (d : Document) (s : HazeSettings),
      (getDocumentSettings client st d.uri).1 = Outcome.ok s →
      (validateTextDocument client st d).1 = Outcome.ok [] := by
  constructor
  · obtain ⟨s, hs⟩ := getDocumentSettings_resolves client st doc.uri hclient hcache
    rcases hg : getDocumentSettings client st doc.uri with ⟨o, st₂, reqs⟩
    rw [hg] at hs
    simp only at hs
    subst hs
    refine ⟨st₂, reqs, ?_⟩
    unfold onDiagnostics
    rw [hdoc]
    dsimp only
    unfold validateTextDocument
    rw [hg]
  · intro d s hd
    rcases hg : getDocumentSettings client st d.uri with ⟨o, st₂, reqs⟩
    rw [hg] at hd
    simp only at hd
    subst hd
    unfold validateTextDocument
    rw [hg]

/-- Witness for C3: pulling diagnostics for the open `a.hz` in the sample
session answers with a full report with no items. -/
theorem onDiagnostics_known_full_empty_witness :
    (∃ st' reqs, onDiagnostics okClient openState "file:///a.hz" =
        (Outcome.ok { kind := DocumentDiagnosticReportKind.Full, items := [] }, st', reqs)) ∧
    ∀ (d : Document) (s : HazeSettings),
      (getDocumentSettings okClient openState d.uri).1 = Outcome.ok s →
      (validateTextDocument okClient openState d).1 = Outcome.ok [] :=
  onDiagnostics_known_full_empty okClient openState "file:///a.hz" sampleDoc rfl
    (fun _ => ⟨defaultSettings, rfl⟩)
    (fun u v hv => by simp [openState, mapGet] at hv)

/-- The configuration request lines 123-126 issue for a resource: scoped to
that resource and to the `haze-ls` section. -/
def configReq (resource : String) : ConfigRequest :=
  { scopeUri := resource, sectionName := "haze-ls" }

/-- C4: the settings cache policy of `getDocumentSettings`.  Without the
configuration capability the global settings are returned with no cache
access and no round trip; with it, a cached resource is answered from the
cache with no query, a first request issues exactly the one query scoped
to the resource and the `haze-ls` section and caches the outcome, and the
immediately repeated request is answered from the cache with no further
query. -/
theorem getDocumentSettings_cache_policy (client : ConfigClient) (st : ServerState)
    (resource : String) :
    (st.flags.hasConfigurationCapability = false →
      getDocumentSettings client st resource = (Outcome.ok st.globalSettings, st, [])) ∧
    (st.flags.hasConfigurationCapability = true →
      (∀ v, mapGet st.documentSettings resource = some v →
        getDocumentSettings client st resource = (v, st, [])) ∧
      (mapGet st.documentSettings resource = none →
        getDocumentSettings client st resource =
          (client (configReq resource),
           { st with documentSettings :=
                       mapSet st.documentSettings resource (client (configReq resource)) },
           [configReq resource]) ∧
        getDocumentSettings client (getDocumentSettings client st resource).2.1 resource =
          (client (configReq resource), (getDocumentSettings client st resource).2.1, []))) := by
  refine ⟨fun hcap => by unfold getDocumentSettings; rw [hcap]; rfl, fun hcap => ⟨?_, ?_⟩⟩
  · intro v hv
    unfold getDocumentSettings
    rw [hcap]
    simp only [Bool.true_eq_false, if_false]
    rw [hv]
  · intro hnone
    have hfirst : getDocumentSettings client st resource =
        (client (configReq resource),
         { st with documentSettings :=
                     mapSet st.documentSettings resource (client (configReq resource)) },
         [configReq resource]) := by
      unfold getDocumentSettings configReq
      rw [hcap]
      simp only [Bool.true_eq_false, if_false]
      rw [hnone]
    refine ⟨hfirst, ?_⟩
    rw [hfirst]
    unfold getDocumentSettings
    dsimp only
    rw [hcap]
    simp only [Bool.true_eq_false, if_false]
    rw [mapGet_mapSet_self]

/-- C5: when the session supports per-resource configuration — the only
mode in which `getDocumentSettings` ever populates the cache — processing a
global configuration-change notification leaves no cached entry behind, so
the next settings request for any resource issues a fresh configuration
query for it. -/
theorem onDidChangeConfiguration_invalidates (client : ConfigClient)
    (change : Option HazeSettings) (st : ServerState)
    (hcap : st.flags.hasConfigurationCapability = true) :
    (onDidChangeConfiguration change st).documentSettings = [] ∧
    ∀ resource,
      getDocumentSettings client (onDidChangeConfiguration change st) resource =
        (client (configReq resource),
         { onDidChangeConfiguration change st with
             documentSettings := [(resource, client (configReq resource))] },
         [configReq resource]) := by
  have hclear : onDidChangeConfiguration change st =
      { st with documentSettings := [] } := by
    unfold onDidChangeConfiguration
    rw [hcap]
    simp
  refine ⟨by rw [hclear], fun resource => ?_⟩
  rw [hclear]
  unfold getDocumentSettings configReq
  dsimp only
  rw [hcap]
  simp [mapGet, mapSet]

/-- Witness for C5: in a session with two cached settings entries, the
configuration-change handler clears both, and the next request for the
first resource performs a fresh round trip. -/
theorem onDidChangeConfiguration_invalidates_witness :
    (onDidChangeConfiguration none
        { openState with
            documentSettings := [("file:///a.hz", Outcome.ok defaultSettings),
                                 ("file:///b.hz", Outcome.ok defaultSettings)] }).documentSettings
      = [] ∧
    ∀ resource,
      getDocumentSettings okClient
          (onDidChangeConfiguration none
            { openState with
                documentSettings := [("file:///a.hz", Outcome.ok defaultSettings),
                                     ("file:///b.hz", Outcome.ok defaultSettings)] }) resource =
        (okClient (configReq resource),
         { onDidChangeConfiguration none
             { openState with
                 documentSettings := [("file:///a.hz", Outcome.ok defaultSettings),
                                      ("file:///b.hz", Outcome.ok defaultSettings)] } with
             documentSettings := [(resource, okClient (configReq resource))] },
         [configReq resource]) :=
  onDidChangeConfiguration_invalidates okClient none
    { openState with
        documentSettings := [("file:///a.hz", Outcome.ok defaultSettings),
                             ("file:///b.hz", Outcome.ok defaultSettings)] } rfl

/-- C6: a close event removes exactly the closed document's settings-cache
entry: afterwards that resource has no cached entry — so with the
configuration capability the next settings request for it performs a fresh
round trip — while every other resource's cached entry is unchanged. -/
theorem processClose_settings_frame (client : ConfigClient) (st : ServerState) (uri : String) :
    mapGet (processClose st uri).documentSettings uri = none ∧
    (∀ other, other ≠ uri →
      mapGet (processClose st uri).documentSettings other = mapGet st.documentSettings other) ∧
    (st.flags.hasConfigurationCapability = true →
      (getDocumentSettings client (processClose st uri) uri).2.2 = [configReq uri]) := by
  refine ⟨mapGet_mapDelete_self _ _, fun other h => mapGet_mapDelete_other _ _ _ h, fun hcap => ?_⟩
  unfold getDocumentSettings
  dsimp only [processClose]
  rw [hcap]
  simp only [Bool.true_eq_false, if_false]
  rw [mapGet_mapDelete_self]
  rfl

/-- C8: evaluation of the code at the failing input.  With `a.hz` open and a
client whose configuration promise rejects, the diagnostics pull propagates
the rejection: the handler answers with an error, not with a report, and no
fallback to `defaultSettings` happens anywhere on the path. -/
theorem onDiagnostics_config_failure_errors :
    onDiagnostics failClient openState "file:///a.hz" =
      (Outcome.error "configuration request failed",
       { openState with
           documentSettings := [("file:///a.hz", Outcome.error "configuration request failed")] },
       [configReq "file:///a.hz"]) ∧
    ∀ report, (onDiagnostics failClient openState "file:///a.hz").1 ≠ Outcome.ok report := by
  have h1 : onDiagnostics failClient openState "file:///a.hz" =
      (Outcome.error "configuration request failed",
       { openState with
           documentSettings := [("file:///a.hz", Outcome.error "configuration request failed")] },
       [configReq "file:///a.hz"]) := rfl
  refine ⟨h1, fun report h => ?_⟩
  rw [h1] at h
  simp at h

/-- Modelled from the spec: the document store's Change transition.  The
store itself is the `TextDocuments` manager of the vscode-languageserver
libraries (instantiated on server.ts line 31), whose update logic is not
part of this repository's sources; the spec requires the store to ignore a
change notification whose version is not greater than the stored version
and otherwise to replace the text (with the result of applying the edits)
and the version. -/
def applyChange (st : ServerState) (uri : String) (version : Int) (newText : String) :
    ServerState :=
  match mapGet st.documents uri with
  | none => st
  | some doc =>
    if version ≤ doc.version then st
    else
      { st with documents :=
                  mapSet st.documents uri { doc with version := version, text := newText } }

/-- C9: a Change notification carrying a version at most the stored version
is a no-op on the session state — in particular the stored text and version
of every document are unchanged. -/
theorem applyChange_stale_noop (st : ServerState) (uri : String) (version : Int)
    (newText : String) (doc : Document)
    (hdoc : mapGet st.documents uri = some doc) (hver : version ≤ doc.version) :
    applyChange st uri version newText = st := by
  unfold applyChange
  rw [hdoc]
  simp [hver]

/-- Witness for C9: re-delivering a change for `a.hz` with the already
stored version 1 leaves the session state untouched. -/
theorem applyChange_stale_noop_witness :
    applyChange openState "file:///a.hz" 1 "function main2" = openState :=
  applyChange_stale_noop openState "file:///a.hz" 1 "function main2" sampleDoc rfl
    (by norm_num [sampleDoc])

/-! ### Completion catalog -/

/-- The `TokenKind` enumeration (server.ts lines 211-268), the catalog key
carried in each completion item's `data` field. -/
inductive TokenKind where
  | Function
  | Intrinsic
  | Geometry
  | Byte
  | String
  | Nvr
  | Return
  | While
  | For
  | If
  | Else
  | Asm
  | Print
  | Dotmacro
  | Dotdefine
  | Dotorg
  | Dothook
  | Dotunhook
  | R0
  | R1
  | R2
  | R3
  | Move
  | Load
  | Copy
  | Save
  | Iadd
  | Isub
  | Band
  | Bior
  | Bxor
  | Call
  | Exit
  | Push
  | Pull
  | Brnz
  | Bool
deriving DecidableEq, Repr

/-- The one completion-item kind the server uses. -/
inductive CompletionItemKind where
  | Keyword
deriving DecidableEq, Repr

/-- An LSP completion item as the server builds it: the list entries carry
a label, a kind and a catalog key; `detail` and `documentation` stay unset
until resolution. -/
structure CompletionItem where
  label : String
  kind : Option CompletionItemKind
  data : Option TokenKind
  detail : Option String
  documentation : Option String
deriving DecidableEq, Repr

/-- One keyword entry of the completion list: `{ label, kind: Keyword, data }`. -/
def kwItem (label : String) (data : TokenKind) : CompletionItem :=
  { label := label
    kind := some CompletionItemKind.Keyword
    data := some data
    detail := none
    documentation := none }

/-- The position parameter of a completion request, accepted for protocol
conformance and ignored by the handler. -/
structure TextDocumentPositionParams where
  uri : String
  line : Nat
  character : Nat
deriving DecidableEq, Repr

/-- The `connection.onCompletion` handler (lines 274-488): always the same
static list, in source order, ignoring the position parameter. -/
def onCompletion (_textDocumentPosition : TextDocumentPositionParams) : List CompletionItem :=
  [kwItem "function" TokenKind.Function,
   kwItem "intrinsic" TokenKind.Intrinsic,
   kwItem "geometry" TokenKind.Geometry,
   kwItem "byte" TokenKind.Byte,
   kwItem "string" TokenKind.String,
   kwItem "nvr" TokenKind.Nvr,
   kwItem "return" TokenKind.Return,
   kwItem "while" TokenKind.While,
   kwItem "for" TokenKind.For,
   kwItem "if" TokenKind.If,
   kwItem "else" TokenKind.Else,
   kwItem "asm" TokenKind.Asm,
   kwItem "print" TokenKind.Print,
   kwItem ".macro" TokenKind.Dotmacro,
   kwItem ".define" TokenKind.Dotdefine,
   kwItem ".org" TokenKind.Dotorg,
   kwItem ".hook" TokenKind.Dothook,
   kwItem ".unhook" TokenKind.Dotunhook,
   kwItem "r0" TokenKind.R0,
   kwItem "r1" TokenKind.R1,
   kwItem "r2" TokenKind.R2,
   kwItem "r3" TokenKind.R3,
   kwItem "move" TokenKind.Move,
   kwItem "load" TokenKind.Load,
   kwItem "save" TokenKind.Save,
   kwItem "copy" TokenKind.Copy,
   kwItem "iadd" TokenKind.Iadd,
   kwItem "isub" TokenKind.Isub,
   kwItem "band" TokenKind.Band,
   kwItem "bior" TokenKind.Bior,
   kwItem "bxor" TokenKind.Bxor,
   kwItem "call" TokenKind.Call,
   kwItem "exit" TokenKind.Exit,
   kwItem "push" TokenKind.Push,
   kwItem "pull" TokenKind.Pull,
   kwItem "brnz" TokenKind.Brnz,
   kwItem "bool" TokenKind.Bool]

/-- The `connection.onCompletionResolve` handler (lines 492-669): a switch
over the item's catalog key attaching `detail` and `documentation`; a key
matching no case — only possible for an item carrying no catalog key —
falls through and the item is returned unresolved. -/
def onCompletionResolve (item : CompletionItem) : CompletionItem :=
  match item.data with
  | some TokenKind.Function =>
    { item with detail := some "function"
                documentation := some "function {typename} {identifier} = ( {arguments} ) {statement}" }
  | some TokenKind.Intrinsic =>
    { item with detail := some "intrinsic"
                documentation := some "intrinsic {identifier} = {value};" }
  | some TokenKind.Geometry =>
    { item with detail := some "geometry"
                documentation := some "geometry {WIP};" }
  | some TokenKind.Byte =>
    { item with detail := some "byte"
                documentation := some "byte {identifier} = {expression};" }
  | some TokenKind.String =>
    { item with detail := some "string"
                documentation := some "string {identifier} = \"{text}\";" }
  | some TokenKind.Nvr =>
    { item with detail := some "nvr"
                documentation := some "function nvr {identifier} = ..." }
  | some TokenKind.Return =>
    { item with detail := some "return"
                documentation := some "return {expression};" }
  | some TokenKind.While =>
    { item with detail := some "while"
                documentation := some "while ({expression}) {statement}" }
  | some TokenKind.For =>
    { item with detail := some "for"
                documentation := some "for ({statement}; {expression}; {expression}) {statement}" }
  | some TokenKind.If =>
    { item with detail := some "if"
                documentation := some "if ({expression}) {statement}" }
  | some TokenKind.Else =>
    { item with detail := some "else"
                documentation := some "if ... else {statement}" }
  | some TokenKind.Asm =>
    { item with detail := some "asm"
                documentation := some "asm \x7b {commands} \x7d" }
  | some TokenKind.Print =>
    { item with detail := some "print"
                documentation := some "print({expression});" }
  | some TokenKind.Dotmacro =>
    { item with detail := some ".macro"
                documentation := some ".macro {identifier} = ({arguments}): \x7b {substitutions} \x7d" }
  | some TokenKind.Dotdefine =>
    { item with detail := some ".define"
                documentation := some ".define {identifier} = {constexpr}" }
  | some TokenKind.Dotorg =>
    { item with detail := some ".dotorg"
                documentation := some ".dotorg {address}" }
  | some TokenKind.Dothook =>
    { item with detail := some ".hook"
                documentation := some ".hook" }
  | some TokenKind.Dotunhook =>
    { item with detail := some ".unhook"
                documentation := some ".unhook" }
  | some TokenKind.R0 =>
    { item with detail := some "r0", documentation := some "r0" }
  | some TokenKind.R1 =>
    { item with detail := some "r1", documentation := some "r1" }
  | some TokenKind.R2 =>
    { item with detail := some "r2", documentation := some "r2" }
  | some TokenKind.R3 =>
    { item with detail := some "r3", documentation := some "r3" }
  | some TokenKind.Move =>
    { item with detail := some "move"
                documentation := some "move {dst-reg}, {src-reg}" }
  | some TokenKind.Load =>
    { item with detail := some "load"
                documentation := some "load {dst-reg}, &{src-addr}" }
  | some TokenKind.Copy =>
    { item with detail := some "copy"
                documentation := some "copy {dst-reg}, #{src-imm}" }
  | some TokenKind.Save =>
    { item with detail := some "save"
                documentation := some "save &{dst-addr}, {src-reg}" }
  | some TokenKind.Iadd =>
    { item with detail := some "iadd"
                documentation := some "iadd {dst-reg}, {src-reg}" }
  | some TokenKind.Isub =>
    { item with detail := some "isub"
                documentation := some "isub {dst-reg}, {src-reg}" }
  | some TokenKind.Band =>
    { item with detail := some "band"
                documentation := some "band {dst-reg}, {src-reg}" }
  | some TokenKind.Bior =>
    { item with detail := some "bior"
                documentation := some "bior {dst-reg}, {src-reg}" }
  | some TokenKind.Bxor =>
    { item with detail := some "bxor"
                documentation := some "bxor {dst-reg}, {src-reg}" }
  | some TokenKind.Call =>
    { item with detail := some "call"
                documentation := some "call &{dst-addr}" }
  | some TokenKind.Exit =>
    { item with detail := some "exit", documentation := some "exit" }
  | some TokenKind.Push =>
    { item with detail := some "push"
                documentation := some "push {src-reg}" }
  | some TokenKind.Pull =>
    { item with detail := some "pull"
                documentation := some "pull {dst-reg}" }
  | some TokenKind.Brnz =>
    { item with detail := some "brnz"
                documentation := some "brnz &{dst-addr}, {src-reg}" }
  | some TokenKind.Bool =>
    { item with detail := some "bool"
                documentation := some "bool {src-reg}" }
  | none => item

/-- A concrete completion-request position (the handler ignores it). -/
def samplePos : TextDocumentPositionParams :=
  { uri := "file:///a.hz", line := 0, character := 0 }

/-- Helper: every entry of the static completion list resolves with a
detail and a documentation attached. -/
theorem resolve_attaches_detail_of_mem :
    ∀ item ∈ onCompletion samplePos,
      (onCompletionResolve item).detail.isSome = true ∧
      (onCompletionResolve item).documentation.isSome = true := by
  decide

/-- Helper: no entry of the static completion list carries an absent
catalog key. -/
theorem none_not_a_catalog_key :
    (none : Option TokenKind) ∉ (onCompletion samplePos).map CompletionItem.data := by
  decide

/-- C7: resolving any in-range entry of the completion list never fails —
the resolved item carries a detail (and a documentation) — and an item that
comes back with no detail can only have carried a key that does not
originate from the completion list. -/
theorem onCompletionResolve_list_total (tp : TextDocumentPositionParams) (i : Nat)
    (h : i < (onCompletion tp).length) :
    ((onCompletionResolve ((onCompletion tp).get ⟨i, h⟩)).detail.isSome = true ∧
     (onCompletionResolve ((onCompletion tp).get ⟨i, h⟩)).documentation.isSome = true) ∧
    ∀ item : CompletionItem, (onCompletionResolve item).detail = none →
      item.data ∉ (onCompletion tp).map CompletionItem.data := by
  constructor
  · exact resolve_attaches_detail_of_mem ((onCompletion tp).get ⟨i, h⟩)
      (List.get_mem (onCompletion tp) i h)
  · intro item hnone
    cases hd : item.data with
    | none =>
      exact none_not_a_catalog_key
    | some k =>
      exfalso
      cases k <;> simp only [onCompletionResolve, hd] at hnone
      all_goals simp at hnone

/-- Witness for C7: the first list entry resolves with detail and
documentation attached, and a detail-less resolution implies a key from
outside the list. -/
theorem onCompletionResolve_list_total_witness :
    (((onCompletionResolve ((onCompletion samplePos).get ⟨0, by decide⟩)).detail.isSome = true ∧
      (onCompletionResolve ((onCompletion samplePos).get ⟨0, by decide⟩)).documentation.isSome
        = true) ∧
     ∀ item : CompletionItem, (onCompletionResolve item).detail = none →
       item.data ∉ (onCompletion samplePos).map CompletionItem.data) :=
  onCompletionResolve_list_total samplePos 0 (by decide)

/-- C10: the `.org` entry (index 15, catalog key `Dotorg`) resolves with
detail `.dotorg` and documentation `.dotorg {address}`, a detail different
from its label — while every other list entry resolves with a detail equal
to its label. -/
theorem onCompletionResolve_dotorg :
    ((onCompletion samplePos).get ⟨15, by decide⟩).label = ".org" ∧
    ((onCompletion samplePos).get ⟨15, by decide⟩).data = some TokenKind.Dotorg ∧
    (onCompletionResolve ((onCompletion samplePos).get ⟨15, by decide⟩)).detail
      = some ".dotorg" ∧
    (onCompletionResolve ((onCompletion samplePos).get ⟨15, by decide⟩)).documentation
      = some ".dotorg {address}" ∧
    (onCompletionResolve ((onCompletion samplePos).get ⟨15, by decide⟩)).detail
      ≠ some ((onCompletion samplePos).get ⟨15, by decide⟩).label ∧
    ∀ j : Fin (onCompletion samplePos).length, (j : Nat) ≠ 15 →
      (onCompletionResolve ((onCompletion samplePos).get j)).detail
        = some ((onCompletion samplePos).get j).label := by
  refine ⟨rfl, rfl, rfl, rfl, by decide, ?_⟩
  decide

end HazeLS
